import Mathlib

/-!
Verification development for the datasheetminer extraction-reconciliation-and-
persistence pipeline.  Python strings are embedded as `List Char`; machine
behaviour (exceptions, truthiness, in-place mutation) is made explicit.
Sources embedded here:
  * `datasheetminer/scraper.py`   (`normalize_string`, the id-derivation and
    existence-check loop of `process_datasheet`, and the final batch save),
  * `datasheetminer/utils.py`     (`parse_gemini_response` and its brace-depth
    fallback extraction),
  * `datasheetminer/db/dynamo.py` (`DynamoDBClient.create`, `read`,
    `batch_create`, `delete_all`),
  * `datasheetminer/database.py`  (`DynamoDBHandler.create_item`),
  * `datasheetminer/db/pusher.py` (`DataPusher.push_to_db`),
  * `datasheetminer/models/common.py` (`validate_value_unit_str`),
  * `datasheetminer/llm.py`       (the tenacity retry decorator on
    `generate_content`).
-/

/-! ## Python string primitives -/

/-- Python whitespace characters relevant to `str.strip()` (ASCII subset;
the inputs handled by the pipeline are ASCII). -/
def isPyWs (c : Char) : Bool :=
  c = ' ' ∨ c = '\t' ∨ c = '\n' ∨ c = '\r' ∨ c = '\x0b' ∨ c = '\x0c'

/-- Python `s.strip()`: remove whitespace from both ends. -/
def pyStrip (l : List Char) : List Char :=
  ((l.dropWhile isPyWs).reverse.dropWhile isPyWs).reverse

/-- Python `s.rstrip(chars)` restricted to a single character, as in
`obj_str.rstrip(",")` in `parse_gemini_response`. -/
def pyRstripChar (c : Char) (l : List Char) : List Char :=
  (l.reverse.dropWhile (fun x => x = c)).reverse

/-- Python `s.split(sep)` for a one-character separator: splitting the empty
string yields `[""]`, and every separator occurrence produces a boundary. -/
def pySplitOn (sep : Char) : List Char → List (List Char)
  | [] => [[]]
  | c :: rest =>
    let r := pySplitOn sep rest
    if c = sep then [] :: r
    else
      match r with
      | h :: t => (c :: h) :: t
      | [] => [[c]]

/-- Python `s.upper()` per character (ASCII, as used on product-type tags). -/
def pyUpper (l : List Char) : List Char := l.map Char.toUpper

/-- Python `s.lower()` per character (ASCII; all natural-key inputs in the
claims are ASCII). -/
def pyLower (l : List Char) : List Char := l.map Char.toLower

/-- ASCII lowercase letter or digit: exactly the character class kept by the
regex `[^a-z0-9]` substitution in `normalize_string` (which runs after
`lower()`). -/
def isLowerAlnumAscii (c : Char) : Bool :=
  ('a' ≤ c ∧ c ≤ 'z') ∨ ('0' ≤ c ∧ c ≤ '9')

/-! ## IdentityResolver: `normalize_string` and id derivation
(`datasheetminer/scraper.py`, inside `process_datasheet`) -/

/-- `normalize_string(s)` from `scraper.py`:
`if not s: return ""` (Python truthiness: `None` and `""` are falsy), then
`s = s.lower().strip()` followed by `re.sub(r"[^a-z0-9]", "", s)`. -/
def normalize_string (s : Option (List Char)) : List Char :=
  match s with
  | none => []
  | some l =>
    if l = [] then []
    else (pyStrip (pyLower l)).filter isLowerAlnumAscii

/-- Python `a or b` on strings: `a` when non-empty, else `b`. -/
def pyOrStr (a b : List Char) : List Char := if a = [] then b else a

/-- A name-based UUID as used by the pipeline.  `uuid.uuid5(ns, name)` is a
pure function of its two arguments (SHA-1 based); the claims rely only on that
functional determinism, so the hash itself is abstracted by the pairing
constructor `v5`, while ids produced by Pydantic `default_factory=uuid4` are
random and modelled by `v4` with an environment-chosen seed.  Distinct
constructor applications model the (assumed collision-free) distinct UUID
strings. -/
inductive Uuid where
  | v5 (ns : List Char) (name : List Char)
  | v4 (seed : Nat)
deriving DecidableEq, Repr

/-- `PRODUCT_NAMESPACE = uuid.UUID("6ba7b810-9dad-11d1-80b4-00c04fd430c8")`
from `process_datasheet`. -/
def PRODUCT_NAMESPACE : List Char := "6ba7b810-9dad-11d1-80b4-00c04fd430c8".data

/-- One parsed record as the `process_datasheet` loop sees it: the fields the
cited code reads or mutates.  `product_id` starts as the Pydantic
`default_factory=uuid4` value and is overwritten in place when a key is
derivable. -/
structure Record where
  product_id : Uuid
  product_type : List Char
  manufacturer : Option (List Char)
  part_number : Option (List Char)
  product_name : Option (List Char)
  datasheet_url : Option (List Char)
  pages : Option (List Nat)
deriving DecidableEq, Repr

/-- The id-string derivation of `process_datasheet`:
`norm_manufacturer = normalize_string(model.manufacturer) or
normalize_string(manufacturer)`, then the primary
manufacturer-plus-part-number strategy, else the manufacturer-plus-name
fallback, else no key (`continue`). -/
def deriveIdString (ctxManufacturer : List Char) (m : Record) : Option (List Char) :=
  let normManufacturer :=
    pyOrStr (normalize_string m.manufacturer) (normalize_string (some ctxManufacturer))
  let normPartNumber := normalize_string m.part_number
  let normName := normalize_string m.product_name
  if normManufacturer ≠ [] ∧ normPartNumber ≠ [] then
    some (normManufacturer ++ ':' :: normPartNumber)
  else if normManufacturer ≠ [] ∧ normName ≠ [] then
    some (normManufacturer ++ ':' :: normName)
  else
    none

/-- `uuid.uuid5(PRODUCT_NAMESPACE, id_string)` as called by the loop. -/
def productUuid5 (idString : List Char) : Uuid :=
  Uuid.v5 PRODUCT_NAMESPACE idString

/-! ## JSON values and `json.loads`
A recursive-descent embedding of the strict JSON grammar accepted by Python
`json.loads` (objects, arrays, strings with escapes, numbers, literals,
whitespace).  Numeric literals are kept verbatim.  Unicode escapes decode the
code point directly (no surrogate pairing) and `Infinity`/`NaN` extensions are
omitted; neither occurs in the pipeline inputs. -/

/-- Opening brace character, written via its code to keep braces out of
literals. -/
def lbrace : Char := '\x7b'

/-- Closing brace character. -/
def rbrace : Char := '\x7d'

/-- A parsed JSON value. -/
inductive JValue where
  | jnull
  | jbool (b : Bool)
  | jnum (lit : List Char)
  | jstr (s : List Char)
  | jarr (elems : List JValue)
  | jobj (fields : List (List Char × JValue))
deriving Repr

/-- JSON whitespace as accepted between tokens by `json.loads`. -/
def isJsonWs (c : Char) : Bool :=
  c = ' ' ∨ c = '\t' ∨ c = '\n' ∨ c = '\r'

/-- Skip JSON whitespace. -/
def skipWs (l : List Char) : List Char := l.dropWhile isJsonWs

/-- Decimal digit. -/
def isDigitCh (c : Char) : Bool := '0' ≤ c ∧ c ≤ '9'

/-- Hexadecimal digit value, for `\uXXXX` escapes. -/
def hexVal (c : Char) : Option Nat :=
  if '0' ≤ c ∧ c ≤ '9' then some (c.toNat - '0'.toNat)
  else if 'a' ≤ c ∧ c ≤ 'f' then some (c.toNat - 'a'.toNat + 10)
  else if 'A' ≤ c ∧ c ≤ 'F' then some (c.toNat - 'A'.toNat + 10)
  else none

/-- Parse the body of a JSON string (after the opening quote), decoding
escapes, returning the content and the remaining input after the closing
quote. -/
def parseJsonStr : Nat → List Char → Option (List Char × List Char)
  | 0, _ => none
  | _, [] => none
  | fuel + 1, c :: rest =>
    if c = '"' then some ([], rest)
    else if c = '\\' then
      match rest with
      | [] => none
      | e :: rest2 =>
        if e = 'u' then
          match rest2 with
          | h1 :: h2 :: h3 :: h4 :: rest3 =>
            match hexVal h1, hexVal h2, hexVal h3, hexVal h4 with
            | some a, some b, some c3, some d =>
              match parseJsonStr fuel rest3 with
              | some (s, r) =>
                some (Char.ofNat (((a * 16 + b) * 16 + c3) * 16 + d) :: s, r)
              | none => none
            | _, _, _, _ => none
          | _ => none
        else
          let dec : Option Char :=
            if e = '"' then some '"'
            else if e = '\\' then some '\\'
            else if e = '/' then some '/'
            else if e = 'b' then some '\x08'
            else if e = 'f' then some '\x0c'
            else if e = 'n' then some '\n'
            else if e = 'r' then some '\r'
            else if e = 't' then some '\t'
            else none
          match dec with
          | none => none
          | some d =>
            match parseJsonStr fuel rest2 with
            | some (s, r) => some (d :: s, r)
            | none => none
    else
      match parseJsonStr fuel rest with
      | some (s, r) => some (c :: s, r)
      | none => none

/-- Parse a JSON number literal: `-? (0 | [1-9][0-9]*) frac? exp?`, returning
the literal and the rest. -/
def parseJsonNum (l : List Char) : Option (List Char × List Char) :=
  let (sign, l1) :=
    match l with
    | '-' :: r => (['-'], r)
    | _ => (([] : List Char), l)
  let intPart := l1.takeWhile isDigitCh
  let l2 := l1.dropWhile isDigitCh
  if intPart = [] then none
  else if intPart.length > 1 ∧ intPart.headI = '0' then none
  else
    let (frac, l3) :=
      match l2 with
      | '.' :: r =>
        let ds := r.takeWhile isDigitCh
        if ds = [] then (([] : List Char), l2)
        else ('.' :: ds, r.dropWhile isDigitCh)
      | _ => (([] : List Char), l2)
    if l2 ≠ l3 ∨ frac = [] then
      let (ex, l4) :=
        match l3 with
        | e :: r =>
          if e = 'e' ∨ e = 'E' then
            let (es, r2) :=
              match r with
              | s :: r3 => if s = '+' ∨ s = '-' then ([e, s], r3) else ([e], r)
              | [] => ([e], r)
            let ds := r2.takeWhile isDigitCh
            if ds = [] then (([] : List Char), l3)
            else (es ++ ds, r2.dropWhile isDigitCh)
          else (([] : List Char), l3)
        | [] => (([] : List Char), l3)
      some (sign ++ intPart ++ frac ++ ex, l4)
    else none

mutual

/-- Parse one JSON value (leading whitespace allowed), with fuel. -/
def parseJsonVal : Nat → List Char → Option (JValue × List Char)
  | 0, _ => none
  | fuel + 1, input =>
    match skipWs input with
    | [] => none
    | c :: rest =>
      if c = '"' then
        match parseJsonStr (fuel + 1) rest with
        | some (s, r) => some (JValue.jstr s, r)
        | none => none
      else if c = lbrace then
        match skipWs rest with
        | c2 :: rest2 =>
          if c2 = rbrace then some (JValue.jobj [], rest2)
          else
            match parseJsonMembers fuel (skipWs rest) with
            | some (fs, r) => some (JValue.jobj fs, r)
            | none => none
        | [] => none
      else if c = '[' then
        match skipWs rest with
        | c2 :: rest2 =>
          if c2 = ']' then some (JValue.jarr [], rest2)
          else
            match parseJsonElems fuel (skipWs rest) with
            | some (es, r) => some (JValue.jarr es, r)
            | none => none
        | [] => none
      else if c = 't' then
        match rest with
        | 'r' :: 'u' :: 'e' :: r => some (JValue.jbool true, r)
        | _ => none
      else if c = 'f' then
        match rest with
        | 'a' :: 'l' :: 's' :: 'e' :: r => some (JValue.jbool false, r)
        | _ => none
      else if c = 'n' then
        match rest with
        | 'u' :: 'l' :: 'l' :: r => some (JValue.jnull, r)
        | _ => none
      else
        match parseJsonNum (c :: rest) with
        | some (lit, r) => some (JValue.jnum lit, r)
        | none => none

/-- Parse the members of a JSON object (at least one), after the opening
brace and any whitespace. -/
def parseJsonMembers : Nat → List Char → Option (List (List Char × JValue) × List Char)
  | 0, _ => none
  | fuel + 1, input =>
    match input with
    | c :: rest =>
      if c = '"' then
        match parseJsonStr (fuel + 1) rest with
        | some (k, r1) =>
          match skipWs r1 with
          | ':' :: r2 =>
            match parseJsonVal fuel r2 with
            | some (v, r3) =>
              match skipWs r3 with
              | ',' :: r4 =>
                match parseJsonMembers fuel (skipWs r4) with
                | some (fs, r5) => some ((k, v) :: fs, r5)
                | none => none
              | c5 :: r5 =>
                if c5 = rbrace then some ([(k, v)], r5) else none
              | [] => none
            | none => none
          | _ => none
        | none => none
      else none
    | [] => none

/-- Parse the elements of a JSON array (at least one), after the opening
bracket and any whitespace. -/
def parseJsonElems : Nat → List Char → Option (List JValue × List Char)
  | 0, _ => none
  | fuel + 1, input =>
    match parseJsonVal fuel input with
    | some (v, r1) =>
      match skipWs r1 with
      | ',' :: r2 =>
        match parseJsonElems fuel r2 with
        | some (es, r3) => some (v :: es, r3)
        | none => none
      | ']' :: r2 => some ([v], r2)
      | _ => none
    | none => none

end

/-- `json.loads(s)`: parse one value and require only whitespace to remain;
`none` models a raised `json.JSONDecodeError`. -/
def jsonLoads (s : List Char) : Option JValue :=
  match parseJsonVal (s.length + 1) s with
  | some (v, rest) => if skipWs rest = [] then some v else none
  | none => none

/-! ## ResponseReconciler: `parse_gemini_response`
(`datasheetminer/utils.py`, lines 497-709) -/

/-- The mutable state of the brace-depth extraction loop: `current_obj`,
`brace_depth`, `in_string`, `escape_next` and the accumulated `parsed_json`.
Candidates that fail their individual parse are logged and skipped, which has
no further effect, so only the accumulator is kept. -/
structure ScanState where
  currentObj : List Char
  braceDepth : Int
  inString : Bool
  escapeNext : Bool
  parsedJson : List JValue
deriving Repr

/-- The initial scanner state. -/
def initScanState : ScanState :=
  { currentObj := [], braceDepth := 0, inString := false,
    escapeNext := false, parsedJson := [] }

/-- One iteration of `for char in content` in the fallback strategy of
`parse_gemini_response`: escape handling first, then the quote toggle, then
the unconditional append, then (outside strings) brace counting; when the
depth returns to zero, `current_obj.strip().rstrip(",")` is the candidate,
empty and bare-braces candidates are skipped, and the candidate is parsed
with `json.loads`, a failure being logged and skipped. -/
def scanStep (st : ScanState) (c : Char) : ScanState :=
  if st.escapeNext then
    { st with currentObj := st.currentObj ++ [c], escapeNext := false }
  else if c = '\\' then
    { st with escapeNext := true, currentObj := st.currentObj ++ [c] }
  else
    let st :=
      if c = '"' then { st with inString := ¬st.inString } else st
    let st := { st with currentObj := st.currentObj ++ [c] }
    if ¬st.inString then
      if c = lbrace then { st with braceDepth := st.braceDepth + 1 }
      else if c = rbrace then
        let st := { st with braceDepth := st.braceDepth - 1 }
        if st.braceDepth = 0 then
          let objStr := pyRstripChar ',' (pyStrip st.currentObj)
          let st :=
            if objStr ≠ [] ∧ objStr ≠ [lbrace, rbrace] then
              match jsonLoads objStr with
              | some v => { st with parsedJson := st.parsedJson ++ [v] }
              | none => st
            else st
          { st with currentObj := [] }
        else st
      else st
    else st

/-- The suffix of `l` after the first occurrence of `c` (`none` when `c` does
not occur), as computed by `raw_text.find("[")` followed by
`raw_text[list_start + 1 :]`. -/
def afterFirst (c : Char) : List Char → Option (List Char)
  | [] => none
  | x :: xs => if x = c then some xs else afterFirst c xs

/-- The two parsing strategies of `parse_gemini_response` applied to the
(already stripped) raw text: whole-text `json.loads` (an array is used as is,
a single object is wrapped, any other value raises an uncaught `ValueError`),
with the brace-depth extraction as the fallback whenever the whole-text parse
raises `JSONDecodeError`.  Errors carry the messages raised by the source. -/
def parseStrategies (rawText : List Char) : Except (List Char) (List JValue) :=
  match jsonLoads rawText with
  | some (JValue.jarr l) => .ok l
  | some (JValue.jobj fs) => .ok [JValue.jobj fs]
  | some _ => .error "JSON response is neither a list nor a dict.".data
  | none =>
    match afterFirst '[' rawText with
    | none => .error "No JSON array found in response.".data
    | some content =>
      let final := content.foldl scanStep initScanState
      match final.parsedJson with
      | [] =>
        .error "No complete JSON objects could be extracted from response.".data
      | v :: vs => .ok (v :: vs)

/-- The key `"product_id"`. -/
def productIdKey : List Char := "product_id".data

/-- `obj.pop("product_id")` applied to a parsed object: the field is removed
when present (non-objects are left untouched; every fallback candidate is an
object). -/
def popProductId (v : JValue) : JValue :=
  match v with
  | .jobj fields => .jobj (fields.filter (fun kv => kv.1 ≠ productIdKey))
  | v => v

/-- The upstream response as `parse_gemini_response` inspects it: the
SDK-level `parsed` attribute (a list of already-validated models, here kept
as their JSON content; `none` or `[]` is falsy) and the raw `text`
(`none` models a missing attribute). -/
structure GeminiResponse where
  parsed : Option (List JValue)
  text : Option (List Char)

/-- `parse_gemini_response(response, schema_type, product_type)` from
`utils.py`: return `response.parsed` unchanged when it is truthy; otherwise
strip and parse `response.text` with the two strategies, remove
model-supplied `product_id` fields, and validate each object against the
schema (`model_class.model_validate`, abstracted as the fallible function
`validate`), failures being logged and skipped; raise when nothing
validates. -/
def parse_gemini_response (validate : JValue → Option JValue)
    (r : GeminiResponse) : Except (List Char) (List JValue) :=
  match r.parsed with
  | some (v :: vs) => .ok (v :: vs)
  | some [] => parseManually validate r
  | none => parseManually validate r
where
  /-- The manual path taken when `response.parsed` is falsy. -/
  parseManually (validate : JValue → Option JValue) (r : GeminiResponse) :
      Except (List Char) (List JValue) :=
    match r.text with
    | none => .error "Response has no text attribute to parse".data
    | some t =>
      let rawText := pyStrip t
      match parseStrategies rawText with
      | .error e => .error e
      | .ok parsedJson =>
        let stripped := parsedJson.map popProductId
        match stripped.filterMap validate with
        | [] =>
          .error "No valid objects could be validated against the schema.".data
        | v :: vs => .ok (v :: vs)

/-! ## StorageEngine: the single `products` table
(`datasheetminer/db/dynamo.py`) -/

/-- A DynamoDB primary key `(PK, SK)`.  `PK` is the partition string
`PRODUCT#<TYPE>`; the sort key `PRODUCT#<product_id>` is determined by the
product id, so it is carried as the id itself (UUID strings are assumed
collision-free across `v4`/`v5` values). -/
abbrev ItemKey := List Char × Uuid

/-- A persisted item: its key and the serialized record. -/
structure Item where
  key : ItemKey
  stored : Record
deriving DecidableEq, Repr

/-- The table: at most one item per key, modelled as an association list that
`put_item` updates in place. -/
abbrev Store := List (ItemKey × Record)

/-- `PK = f"PRODUCT#<type upper>"`. -/
def pkOf (productType : List Char) : List Char :=
  "PRODUCT#".data ++ pyUpper productType

/-- `_serialize_item`: the PK/SK computed fields of `ProductBase`
(`PK = PRODUCT#<product_type upper>`, `SK = PRODUCT#<product_id>`) together
with the record attributes. -/
def serializeItem (m : Record) : Item :=
  { key := (pkOf m.product_type, m.product_id), stored := m }

/-- `table.put_item(Item=item)`: unconditional write, replacing any existing
item at the same key. -/
def storePut (store : Store) (k : ItemKey) (r : Record) : Store :=
  match store with
  | [] => [(k, r)]
  | (k0, r0) :: rest =>
    if k0 = k then (k, r) :: rest else (k0, r0) :: storePut rest k r

/-- `table.get_item(Key=...)`: point lookup. -/
def storeGet (store : Store) (k : ItemKey) : Option Record :=
  match store with
  | [] => none
  | (k0, r0) :: rest => if k0 = k then some r0 else storeGet rest k

/-- The number of items the table holds at a key. -/
def storeCountAt (store : Store) (k : ItemKey) : Nat :=
  (store.filter (fun e => e.1 = k)).length

/-- `DynamoDBClient.create(model)`: `_serialize_item` then a plain
`put_item` with no `ConditionExpression`; on backend acceptance (the happy
path modelled here) it returns `True`.  The `ClientError` branch covers only
backend unavailability, not any duplicate-key condition. -/
def clientCreate (store : Store) (m : Record) : Bool × Store :=
  let item := serializeItem m
  (true, storePut store item.key item.stored)

/-- `ProductBase.model_fields["product_type"].default`: `product_type` is a
required field of `ProductBase` (`product_type: str`), so its Pydantic
default is `PydanticUndefined` — there is no string to take `.upper()` of. -/
def productBaseTypeDefault : Option (List Char) := none

/-- `DynamoDBClient.read(product_id, model_class)`: the PK is built from
`model_class.model_fields["product_type"].default.upper()`.  When the class
has no `product_type` default (as with `ProductBase`, the class the
`process_datasheet` loop passes), the attribute access raises and the
surrounding `except Exception` swallows it, returning `None`; otherwise the
point lookup runs. -/
def clientRead (store : Store) (productId : Uuid)
    (classTypeDefault : Option (List Char)) : Option Record :=
  match classTypeDefault with
  | none => none
  | some t => storeGet store (pkOf t, productId)

/-- Fuel-driven slicing; with fuel at least the list length this is exactly
`for i in range(0, len(models), 25): models[i : i + 25]` (the fuel only
bounds the recursion depth and one unit is spent per 25-element slice). -/
def chunk25Fuel {α : Type} : Nat → List α → List (List α)
  | _, [] => []
  | 0, l => [l.take 25]
  | fuel + 1, x :: xs => (x :: xs).take 25 :: chunk25Fuel fuel (xs.drop 24)

/-- `chunk25 l` is the list of batches produced by
`for i in range(0, len(models), 25): models[i : i + 25]`. -/
def chunk25 {α : Type} (l : List α) : List (List α) :=
  chunk25Fuel l.length l

/-- `DynamoDBClient.batch_create(models)`: chunk into batches of 25, then for
each model `_serialize_item` and buffer a `put_item`; a per-item exception
(`ser m = none`) is printed and skipped without aborting the batch.  Returns
the success count and the table after the writes. -/
def batchStep (ser : Record → Option Item) (acc : Nat × Store)
    (m : Record) : Nat × Store :=
  match ser m with
  | some it => (acc.1 + 1, storePut acc.2 it.key it.stored)
  | none => acc

/-- The body of `for i in range(0, len(models), batch_size)`: write one batch
through the batch writer. -/
def batchWrite (ser : Record → Option Item) (acc : Nat × Store)
    (batch : List Record) : Nat × Store :=
  batch.foldl (batchStep ser) acc

/-- `DynamoDBClient.batch_create(models)` continued: fold the batches. -/
def batch_create (ser : Record → Option Item) (models : List Record)
    (store : Store) : Nat × Store :=
  (chunk25 models).foldl (batchWrite ser) (0, store)

/-- `DataPusher.push_to_db(models, use_batch)` from `db/pusher.py`: empty
input short-circuits to `(0, 0)`; the batch path reports
`(batch_create models, len(models) - that)`; the individual path counts
`create` outcomes. -/
def pushSingleStep (acc : (Nat × Nat) × Store) (m : Record) :
    (Nat × Nat) × Store :=
  let (ok, st2) := clientCreate acc.2 m
  if ok then ((acc.1.1 + 1, acc.1.2), st2)
  else ((acc.1.1, acc.1.2 + 1), st2)

def push_to_db (ser : Record → Option Item) (useBatch : Bool)
    (models : List Record) (store : Store) : (Nat × Nat) × Store :=
  match models with
  | [] => ((0, 0), store)
  | _ :: _ =>
    if useBatch then
      let r := batch_create ser models store
      ((r.1, models.length - r.1), r.2)
    else
      models.foldl pushSingleStep ((0, 0), store)

/-- `DynamoDBClient.delete_all(confirm, dry_run)`: with neither flag it
prints an error and returns 0; it scans and counts every item; in dry-run it
returns the count without mutating; otherwise (with `confirm=True` alone —
the function reads no typed confirmation from the operator) it batch-deletes
every scanned item and returns the deleted count.  Result: the table
afterwards and the returned count. -/
def delete_all (confirm dryRun : Bool) (store : Store) : Store × Nat :=
  if ¬confirm ∧ ¬dryRun then (store, 0)
  else
    let itemCount := store.length
    if dryRun then (store, itemCount)
    else if itemCount = 0 then (store, 0)
    else ([], itemCount)

/-! ## `DynamoDBHandler.create_item` (`datasheetminer/database.py`) -/

/-- A generic item for the handler: an attribute map from names to values. -/
abbrev GItem := List (List Char × List Char)

/-- A generic table keyed by the value of its hash-key attribute. -/
abbrev GStore := List (List Char × GItem)

/-- Attribute lookup in a generic item. -/
def gAttr (item : GItem) (name : List Char) : Option (List Char) :=
  match item with
  | [] => none
  | (k, v) :: rest => if k = name then some v else gAttr rest name

/-- Point lookup in a generic table. -/
def gGet (store : GStore) (k : List Char) : Option GItem :=
  match store with
  | [] => none
  | (k0, it) :: rest => if k0 = k then some it else gGet rest k

/-- `put_item` on a generic table. -/
def gPut (store : GStore) (k : List Char) (item : GItem) : GStore :=
  match store with
  | [] => [(k, item)]
  | (k0, it0) :: rest =>
    if k0 = k then (k, item) :: rest else (k0, it0) :: gPut rest k item

/-- The boto3 `ClientError` outcomes `create_item` distinguishes. -/
inductive DbError where
  | conditionalCheckFailed
  | validation
deriving DecidableEq, Repr

/-- `DynamoDBHandler.create_item(item, overwrite)`: without `overwrite` the
write carries `ConditionExpression="attribute_not_exists(<hash_key>)"`, which
fails exactly when an item already occupies the key; the raised
`ConditionalCheckFailedException` is logged and **re-raised** to the caller.
The result is the table afterwards plus the propagated error, if any (the
table is untouched on error; an item missing its key attribute is refused by
the backend). -/
def create_item (hashKey : List Char) (store : GStore) (item : GItem)
    (overwrite : Bool) : GStore × Option DbError :=
  match gAttr item hashKey with
  | none => (store, some DbError.validation)
  | some kv =>
    if overwrite then (gPut store kv item, none)
    else
      match gGet store kv with
      | some _ => (store, some DbError.conditionalCheckFailed)
      | none => (gPut store kv item, none)

/-! ## The save loop of `process_datasheet` (`datasheetminer/scraper.py`,
lines 476-558): id assignment, the per-id existence check, and the batch
save. -/

/-- One pass of `for model in parsed_models`: set `datasheet_url`/`pages` in
place, derive the id string, skip the model (leave it out of `valid_models`)
when no key is derivable, otherwise overwrite `product_id` in place with
`uuid5(PRODUCT_NAMESPACE, id_string)` and skip the model when
`client.read(model.product_id, ProductBase)` returns an item.  Because the
mutation is in place, the function returns both the mutated `parsed_models`
and `valid_models`. -/
def processModels (ctxManufacturer url : List Char) (pages : Option (List Nat))
    (store : Store) : List Record → List Record × List Record
  | [] => ([], [])
  | m :: rest =>
    let m1 := { m with datasheet_url := some url, pages := pages }
    match deriveIdString ctxManufacturer m1 with
    | none =>
      let (us, vs) := processModels ctxManufacturer url pages store rest
      (m1 :: us, vs)
    | some idString =>
      let m2 := { m1 with product_id := productUuid5 idString }
      match clientRead store m2.product_id productBaseTypeDefault with
      | some _ =>
        let (us, vs) := processModels ctxManufacturer url pages store rest
        (m2 :: us, vs)
      | none =>
        let (us, vs) := processModels ctxManufacturer url pages store rest
        (m2 :: us, m2 :: vs)

/-- The outcome of the save phase of `process_datasheet`. -/
structure SaveResult where
  /-- `parsed_models` after the in-place mutations. -/
  updated : List Record
  /-- `valid_models` as collected by the loop. -/
  valid : List Record
  /-- The list handed to `client.batch_create` — the source passes
  `parsed_models`, not `valid_models`. -/
  submitted : List Record
  /-- The table after the batch write. -/
  finalStore : Store
  /-- `success_count` returned by `batch_create`. -/
  successCount : Nat
deriving Repr

/-- The save phase of `process_datasheet`: run the loop over the parsed
models against the current table, then `client.batch_create(parsed_models)`.
-/
def processDatasheetSave (ctxManufacturer url : List Char)
    (pages : Option (List Nat)) (store : Store) (parsedModels : List Record) :
    SaveResult :=
  let (updated, valid) := processModels ctxManufacturer url pages store parsedModels
  let (succ, finalStore) := batch_create (fun m => some (serializeItem m)) updated store
  { updated := updated, valid := valid, submitted := updated,
    finalStore := finalStore, successCount := succ }

/-! ## The retry policy on `generate_content` (`datasheetminer/llm.py`)
`@retry(stop=stop_after_attempt(5), wait=wait_exponential(multiplier=1,
min=4, max=60))` — tenacity's default retry predicate, which retries on
**every** exception. -/

/-- A failure of the extraction call, split by the taxonomy the claim uses:
transient (network/timeout/rate-limit) versus fatal
(auth/quota/invalid-request). -/
inductive GenFailure where
  | transient (kind : Nat)
  | fatal (kind : Nat)
deriving DecidableEq, Repr

/-- `tenacity.wait_exponential(multiplier, min, max)` evaluated after the
`n`-th attempt: `multiplier * 2 ** n` clamped into `[min, max]`. -/
def waitExponential (multiplier minW maxW n : Nat) : Nat :=
  max minW (min (multiplier * 2 ^ n) maxW)

/-- The wait schedule configured on `generate_content`:
`wait_exponential(multiplier=1, min=4, max=60)`. -/
def generateContentWait (n : Nat) : Nat := waitExponential 1 4 60 n

/-- The outcome of a retried call: either a success at some attempt number,
or tenacity's `RetryError` wrapping the last failure after the attempt cap. -/
inductive RetryOutcome (α : Type) where
  | success (a : α) (attempt : Nat)
  | retryError (last : GenFailure) (attempts : Nat)
deriving DecidableEq, Repr

/-- The retry loop: run attempt `n`; return on success; otherwise — for any
exception, transient or fatal, since no `retry=` predicate is configured —
retry while attempts remain. -/
def retryGo {α : Type} (f : Nat → Except GenFailure α) :
    Nat → Nat → RetryOutcome α
  | 0, n =>
    match f n with
    | .ok a => .success a n
    | .error e => .retryError e n
  | remaining + 1, n =>
    match f n with
    | .ok a => .success a n
    | .error _ => retryGo f remaining (n + 1)

/-- `generate_content` as decorated: `stop_after_attempt(5)` — attempts are
numbered 1 to 5, and each attempt's outcome is given by the environment
oracle `f`. -/
def generateContentRetried {α : Type} (f : Nat → Except GenFailure α) :
    RetryOutcome α :=
  retryGo f 4 1

/-- The attempt count of a retry outcome. -/
def RetryOutcome.attempts {α : Type} : RetryOutcome α → Nat
  | .success _ n => n
  | .retryError _ n => n

/-! ## `validate_value_unit_str` (`datasheetminer/models/common.py`) -/

/-- `validate_value_unit_str(v)`: `None` passes through; otherwise
`v.split(";")` must have exactly two parts, the value part must be non-empty
after `strip()`, and the unit part must be non-empty; each violation raises a
`ValueError` (carried as `.error` with the source's message), and a passing
value is returned unchanged.  There is no numeric check: the former
`float(parts[0])` enforcement was removed from the source. -/
def validate_value_unit_str (v : Option (List Char)) :
    Except (List Char) (Option (List Char)) :=
  match v with
  | none => .ok none
  | some s =>
    match pySplitOn ';' s with
    | [p0, p1] =>
      if pyStrip p0 = [] then .error "value part cannot be empty".data
      else if p1 = [] then .error "unit cannot be empty".data
      else .ok (some s)
    | _ => .error "must be in value;unit format".data

/-- Whether Python `float(s)` accepts `s` (sign, digits with optional point
and optional exponent, surrounding whitespace; the `inf`/`nan` spellings are
irrelevant to the numeric-portion claim and omitted).  This is the
"numeric portion parses as a number" predicate of the claim. -/
def isPyFloatNumeric (s : List Char) : Bool :=
  let t := pyStrip s
  let t1 :=
    match t with
    | c :: r => if c = '+' ∨ c = '-' then r else t
    | [] => t
  let intDigits := t1.takeWhile isDigitCh
  let r1 := t1.dropWhile isDigitCh
  let (fracDigits, r2) :=
    match r1 with
    | '.' :: r => (r.takeWhile isDigitCh, r.dropWhile isDigitCh)
    | _ => (([] : List Char), r1)
  if intDigits = [] ∧ fracDigits = [] then false
  else if r1 ≠ [] ∧ r1.headI ≠ '.' ∧ r2 = r1 then
    -- something other than a fraction follows the integer digits
    match r1 with
    | e :: r =>
      if e = 'e' ∨ e = 'E' then
        let r3 :=
          match r with
          | c :: r4 => if c = '+' ∨ c = '-' then r4 else r
          | [] => r
        r3 ≠ [] ∧ r3.all isDigitCh
      else false
    | [] => true
  else
    match r2 with
    | [] => true
    | e :: r =>
      if e = 'e' ∨ e = 'E' then
        let r3 :=
          match r with
          | c :: r4 => if c = '+' ∨ c = '-' then r4 else r
          | [] => r
        r3 ≠ [] ∧ r3.all isDigitCh
      else false

/-! ## Concrete inputs used to settle the claims -/

/-- The object `\x7b"a": 1\x7d`. -/
def objA : JValue := JValue.jobj [("a".data, JValue.jnum "1".data)]

/-- The object `\x7b"b": 2\x7d`. -/
def objB : JValue := JValue.jobj [("b".data, JValue.jnum "2".data)]

/-- A raw response truncated inside its third object; the first two objects
are fully closed before the truncation point. -/
def rawTruncated : List Char :=
  "[\x7b\"a\": 1\x7d, \x7b\"b\": 2\x7d, \x7b\"c\": 3".data

/-- The deterministic id every `acme`/`a1`-keyed record receives. -/
def uuidAcmeA1 : Uuid := productUuid5 "acme:a1".data

/-- The storage key shared by all motor records with natural key `acme:a1`. -/
def keyAcmeA1 : ItemKey := (pkOf "motor".data, uuidAcmeA1)

/-- A motor record already persisted at `keyAcmeA1`. -/
def recPersisted : Record :=
  { product_id := uuidAcmeA1, product_type := "motor".data,
    manufacturer := some "ACME".data, part_number := some "A1".data,
    product_name := some "M0".data, datasheet_url := some "http://old".data,
    pages := none }

/-- A table already holding `recPersisted`. -/
def storeWithA1 : Store := [(keyAcmeA1, recPersisted)]

/-- First freshly parsed record with natural key `ACME`/`A1`. -/
def recParsed1 : Record :=
  { product_id := Uuid.v4 1, product_type := "motor".data,
    manufacturer := some "ACME".data, part_number := some "A1".data,
    product_name := some "M1".data, datasheet_url := none, pages := none }

/-- Second freshly parsed record, same derived key via `a-1 → a1`. -/
def recParsed2 : Record :=
  { product_id := Uuid.v4 2, product_type := "motor".data,
    manufacturer := some "acme".data, part_number := some "A-1".data,
    product_name := some "M2".data, datasheet_url := none, pages := none }

/-- The source url of the run. -/
def runUrl : List Char := "http://ds".data

/-- `recParsed1` after the loop's in-place mutations. -/
def recParsed1Upd : Record :=
  { recParsed1 with datasheet_url := some runUrl, product_id := uuidAcmeA1 }

/-- `recParsed2` after the loop's in-place mutations. -/
def recParsed2Upd : Record :=
  { recParsed2 with datasheet_url := some runUrl, product_id := uuidAcmeA1 }

/-- The save phase run on the two duplicate records against a table that
already holds their key. -/
def saveDuplicates : SaveResult :=
  processDatasheetSave "acme".data runUrl none storeWithA1
    [recParsed1, recParsed2]

/-- A record with a manufacturer but neither part number nor product name:
no key is derivable for it. -/
def recNoKey : Record :=
  { product_id := Uuid.v4 7, product_type := "motor".data,
    manufacturer := some "ACME".data, part_number := none,
    product_name := none, datasheet_url := none, pages := none }

/-- `recNoKey` after the loop's in-place url/pages mutation (its id is never
reassigned). -/
def recNoKeyUpd : Record := { recNoKey with datasheet_url := some runUrl }

/-- The save phase run on the keyless record against an empty table. -/
def saveNoKey : SaveResult :=
  processDatasheetSave "ACME".data runUrl none [] [recNoKey]

/-- A record at `keyAcmeA1` with different attributes, for the create
counterexample. -/
def recReplacing : Record :=
  { recPersisted with
    product_name := some "M9".data,
    datasheet_url := some "http://new".data }

/-- A generic item whose hash key attribute `PK` is `"k1"`. -/
def gItemOld : GItem := [("PK".data, "k1".data), ("colour".data, "red".data)]

/-- A second generic item at the same hash key with different attributes. -/
def gItemNew : GItem := [("PK".data, "k1".data), ("colour".data, "blue".data)]

/-- A generic table holding `gItemOld`. -/
def gStoreOld : GStore := [("k1".data, gItemOld)]

/-- An extraction response whose `parsed` attribute carries one model-parsed
object that still contains a `product_id` field. -/
def objWithProductId : JValue :=
  JValue.jobj [(productIdKey, JValue.jstr "bogus-id".data),
               ("product_name".data, JValue.jstr "M1".data)]

/-- A response with a truthy `parsed` attribute and non-JSON text. -/
def respPreparsed : GeminiResponse :=
  { parsed := some [objWithProductId], text := some "not json at all".data }

/-! ## Helper lemmas -/

theorem chunk25Fuel_flatten {α : Type} :
    ∀ (fuel : Nat) (l : List α), l.length ≤ fuel →
      (chunk25Fuel fuel l).flatten = l := by
  intro fuel
  induction fuel with
  | zero =>
    intro l hl
    have : l = [] := List.length_eq_zero.mp (Nat.le_zero.mp hl)
    subst this
    simp [chunk25Fuel]
  | succ f ih =>
    intro l hl
    cases l with
    | nil => simp [chunk25Fuel]
    | cons x xs =>
      have hlen : (xs.drop 24).length ≤ f := by
        simp only [List.length_cons, Nat.succ_le_succ_iff] at hl
        simp only [List.length_drop]
        omega
      simp only [chunk25Fuel, List.flatten_cons, ih (xs.drop 24) hlen]
      have h : (x :: xs).drop 25 = xs.drop 24 := rfl
      rw [← h, List.take_append_drop]

theorem chunk25_flatten {α : Type} (l : List α) : (chunk25 l).flatten = l :=
  chunk25Fuel_flatten l.length l le_rfl

theorem chunk25Fuel_mem_length {α : Type} :
    ∀ (fuel : Nat) (l : List α) (b : List α),
      b ∈ chunk25Fuel fuel l → b.length ≤ 25 := by
  intro fuel
  induction fuel with
  | zero =>
    intro l b hb
    cases l with
    | nil => simp [chunk25Fuel] at hb
    | cons x xs =>
      simp only [chunk25Fuel, List.mem_singleton] at hb
      subst hb
      exact List.length_take_le 25 (x :: xs)
  | succ f ih =>
    intro l b hb
    cases l with
    | nil => simp [chunk25Fuel] at hb
    | cons x xs =>
      rcases List.mem_cons.mp hb with h | h
      · subst h
        exact List.length_take_le 25 (x :: xs)
      · exact ih (xs.drop 24) b h

theorem chunk25_mem_length {α : Type} {l : List α} {b : List α}
    (hb : b ∈ chunk25 l) : b.length ≤ 25 :=
  chunk25Fuel_mem_length l.length l b hb

theorem storeGet_storePut_self (store : Store) (k : ItemKey) (r : Record) :
    storeGet (storePut store k r) k = some r := by
  induction store with
  | nil => simp [storePut, storeGet]
  | cons e rest ih =>
    obtain ⟨k0, r0⟩ := e
    by_cases hk : k0 = k
    · simp [storePut, storeGet, hk]
    · simp [storePut, storeGet, hk, ih]

theorem batchWrite_success (ser : Record → Option Item) (batch : List Record) :
    ∀ acc : Nat × Store,
      (batchWrite ser acc batch).1
        = acc.1 + (batch.filter (fun m => (ser m).isSome)).length := by
  induction batch with
  | nil => intro acc; simp [batchWrite]
  | cons m rest ih =>
    intro acc
    cases h : ser m with
    | none =>
      simpa [batchWrite, batchStep, h, List.filter_cons] using ih acc
    | some it =>
      have := ih (acc.1 + 1, storePut acc.2 it.key it.stored)
      simp [batchWrite, batchStep, h, List.filter_cons] at this ⊢
      omega

theorem batchFold_success (ser : Record → Option Item)
    (chunks : List (List Record)) :
    ∀ acc : Nat × Store,
      (chunks.foldl (batchWrite ser) acc).1
        = acc.1 + (chunks.flatten.filter (fun m => (ser m).isSome)).length := by
  induction chunks with
  | nil => intro acc; simp
  | cons c cs ih =>
    intro acc
    have h1 := batchWrite_success ser c acc
    have h2 := ih (batchWrite ser acc c)
    simp only [List.foldl_cons, List.flatten_cons, List.filter_append,
      List.length_append] at h2 ⊢
    omega

theorem batch_create_success (ser : Record → Option Item)
    (models : List Record) (store : Store) :
    (batch_create ser models store).1
      = (models.filter (fun m => (ser m).isSome)).length := by
  have := batchFold_success ser (chunk25 models) (0, store)
  simpa [batch_create, chunk25_flatten] using this

theorem pushSingle_counts (models : List Record) :
    ∀ acc : (Nat × Nat) × Store,
      (models.foldl pushSingleStep acc).1.1 = acc.1.1 + models.length
      ∧ (models.foldl pushSingleStep acc).1.2 = acc.1.2 := by
  induction models with
  | nil => intro acc; simp
  | cons m rest ih =>
    intro acc
    have := ih ((acc.1.1 + 1, acc.1.2), (clientCreate acc.2 m).2)
    simp [pushSingleStep, clientCreate] at this ⊢
    omega

theorem retryGo_allError {α : Type} (f : Nat → Except GenFailure α)
    (e : Nat → GenFailure) (h : ∀ k, f k = .error (e k)) :
    ∀ (remaining n : Nat),
      retryGo f remaining n = .retryError (e (n + remaining)) (n + remaining) := by
  intro remaining
  induction remaining with
  | zero => intro n; simp [retryGo, h n]
  | succ r ih =>
    intro n
    have := ih (n + 1)
    simp only [retryGo, h n]
    rw [this]
    have harith : n + 1 + r = n + (r + 1) := by omega
    rw [harith]

theorem retryGo_firstOk {α : Type} (f : Nat → Except GenFailure α)
    (a : α) (n : Nat) (h : f n = .ok a) :
    ∀ remaining, retryGo f remaining n = .success a n := by
  intro remaining
  cases remaining with
  | zero => simp [retryGo, h]
  | succ r => simp [retryGo, h]

theorem retryGo_attempts_le {α : Type} (f : Nat → Except GenFailure α) :
    ∀ (remaining n : Nat), (retryGo f remaining n).attempts ≤ n + remaining := by
  intro remaining
  induction remaining with
  | zero =>
    intro n
    cases h : f n <;> simp [retryGo, h, RetryOutcome.attempts]
  | succ r ih =>
    intro n
    cases h : f n with
    | ok a => simp [retryGo, h, RetryOutcome.attempts]
    | error e =>
      have := ih (n + 1)
      simp only [retryGo, h]
      omega

/-! ## Claim theorems -/

/-- Claim C1 (code bug shown at its failing input): the raw text
`[\x7b"a": 1\x7d, \x7b"b": 2\x7d, \x7b"c": 3` fails the whole-text parse, and
both `\x7b"a": 1\x7d` and `\x7b"b": 2\x7d` are fully closed before the
truncation point and individually well-formed, yet the fallback returns only
the first of them: the comma separating array elements is accumulated into
the next candidate (`current_obj` is cleared only at each flush), the
candidate `", \x7b"b": 2\x7d"` fails its individual `json.loads`, and is
skipped — so every fully-closed object after the first is lost, where the
claim requires all of them to be returned. -/
theorem claim_truncated_fallback_loses_closed_objects :
    jsonLoads rawTruncated = none
    ∧ jsonLoads "\x7b\"a\": 1\x7d".data = some objA
    ∧ jsonLoads "\x7b\"b\": 2\x7d".data = some objB
    ∧ parseStrategies rawTruncated = .ok [objA]
    ∧ (parseStrategies rawTruncated).toOption.map List.length = some 1 :=
  ⟨rfl, rfl, rfl, rfl, rfl⟩

/-- Claim C5: `normalize_string` keeps only ASCII lowercase letters and
digits (so it lowercases, strips, and removes every other character); the
three spellings of the Nidec name normalize identically; and the records
`(manufacturer="ACME", partNumber="A1")` and
`(manufacturer="acme", partNumber="a-1")` derive the identical key
`acme:a1` and hence the identical generated id. -/
theorem claim_normalize_key_id_equivalence :
    (∀ (s : Option (List Char)) (c : Char),
        c ∈ normalize_string s → isLowerAlnumAscii c = true)
    ∧ normalize_string (some "Nidec Corp.".data)
        = normalize_string (some "NIDEC-CORP".data)
    ∧ normalize_string (some "NIDEC-CORP".data)
        = normalize_string (some "nidec corp".data)
    ∧ deriveIdString "Unknown".data recParsed1 = some "acme:a1".data
    ∧ deriveIdString "Unknown".data recParsed2 = some "acme:a1".data
    ∧ (deriveIdString "Unknown".data recParsed1).map productUuid5
        = (deriveIdString "Unknown".data recParsed2).map productUuid5 := by
  refine ⟨?_, by decide, by decide, by decide, by decide, by decide⟩
  intro s c hc
  cases s with
  | none => simp [normalize_string] at hc
  | some l =>
    by_cases hl : l = []
    · simp [normalize_string, hl] at hc
    · simp only [normalize_string, if_neg hl, List.mem_filter] at hc
      exact hc.2

/-- Witness for the universally quantified part of the C5 theorem, applied
at the concrete input `"Nidec Corp."` and the character `n`. -/
theorem claim_normalize_key_id_equivalence_witness :
    isLowerAlnumAscii 'n' = true :=
  claim_normalize_key_id_equivalence.1 (some "Nidec Corp.".data) 'n' (by decide)

/-- Claim C9 (code bug shown at its failing input): dry-run mode only counts
(first conjunct, the table is returned unchanged), but in live mode
`delete_all(confirm=True)` deletes every item even though the operator never
typed a confirmation phrase — the function reads no input at all, while its
own docstring promises a typed `DELETE ALL` prompt.  Passing neither flag
refuses to act. -/
theorem claim_delete_all_gating :
    delete_all false true storeWithA1 = (storeWithA1, 1)
    ∧ delete_all true false storeWithA1 = ([], 1)
    ∧ delete_all false false storeWithA1 = (storeWithA1, 0)
    ∧ storeWithA1 ≠ [] :=
  ⟨rfl, rfl, rfl, by decide⟩

/-- Claim C10: when the SDK-level `parsed` attribute is truthy,
`parse_gemini_response` returns it unchanged and immediately: the result is
the `parsed` list itself, independent of the schema validator and of the
raw text, so no truncation recovery runs, no `product_id` is stripped, and
no schema validation is performed on this path. -/
theorem claim_preparsed_short_circuit (validate : JValue → Option JValue)
    (r : GeminiResponse) (v : JValue) (vs : List JValue)
    (h : r.parsed = some (v :: vs)) :
    parse_gemini_response validate r = .ok (v :: vs) := by
  unfold parse_gemini_response
  rw [h]

/-- Witness: a response whose pre-parsed list still carries a `product_id`
field and whose text is not JSON, given a validator that rejects everything —
the pre-parsed list is still returned verbatim. -/
theorem claim_preparsed_short_circuit_witness :
    parse_gemini_response (fun _ => none) respPreparsed
      = .ok [objWithProductId] :=
  claim_preparsed_short_circuit (fun _ => none) respPreparsed
    objWithProductId [] rfl

/-- Claim C2 (code bug shown at its failing input): two records with the
identical derived key `acme:a1` are processed in one invocation against a
table that already holds an item at that key.  The point-lookup existence
check discards neither (the lookup builds its PK from
`ProductBase.model_fields["product_type"].default`, which does not exist, so
`read` swallows the exception and returns `None`), both records are handed
to the batch write (`client.batch_create(parsed_models)`), and the write
replaces the pre-existing item — the claim requires the second record to be
discarded before any write is attempted.  Only the final conjunct of the
claim holds: the table ends with exactly one item at the key. -/
theorem claim_duplicate_key_records_not_discarded_before_write :
    storeGet storeWithA1 keyAcmeA1 = some recPersisted
    ∧ saveDuplicates.valid = [recParsed1Upd, recParsed2Upd]
    ∧ saveDuplicates.submitted = [recParsed1Upd, recParsed2Upd]
    ∧ storeCountAt saveDuplicates.finalStore keyAcmeA1 = 1
    ∧ storeGet saveDuplicates.finalStore keyAcmeA1 = some recParsed2Upd :=
  ⟨rfl, rfl, rfl, by decide, rfl⟩

/-- Claim C4 (code bug shown at its failing input): a record with a
manufacturer but neither part number nor product name derives no key, so the
loop rejects it (`valid_models` stays empty), yet the batch write receives
the full `parsed_models` list, and the record is persisted under its random
`uuid4` id — the claim requires a rejected record never to be persisted. -/
theorem claim_keyless_record_rejected_yet_persisted :
    deriveIdString "ACME".data recNoKeyUpd = none
    ∧ saveNoKey.valid = []
    ∧ saveNoKey.submitted = [recNoKeyUpd]
    ∧ saveNoKey.successCount = 1
    ∧ storeGet saveNoKey.finalStore (pkOf "motor".data, Uuid.v4 7)
        = some recNoKeyUpd :=
  ⟨rfl, rfl, rfl, by decide, rfl⟩

/-- Counterexample to claim C3 as stated: `DynamoDBClient.create` on a
record whose computed key already holds an item does not fail — it returns
`True` and replaces the pre-existing item, whose attributes are therefore
not preserved. -/
theorem claim_create_conditionality_counterexample :
    clientCreate storeWithA1 recReplacing = (true, [(keyAcmeA1, recReplacing)])
    ∧ recReplacing ≠ recPersisted
    ∧ storeGet (clientCreate storeWithA1 recReplacing).2 keyAcmeA1
        ≠ some recPersisted :=
  ⟨rfl, by decide, by decide⟩

/-- Claim C3 as amended: the pipeline's `DynamoDBClient.create` is an
unconditional write — on a key that already holds an item it succeeds and
the item found at the key afterwards is the new record; the generic
`DynamoDBHandler.create_item` with `overwrite=False` is conditional
(`attribute_not_exists` on the hash key): on an occupied key it leaves the
table unchanged and re-raises `ConditionalCheckFailedException` to its
caller. -/
theorem claim_create_conditionality_amended :
    (∀ (store : Store) (m m0 : Record),
      storeGet store (serializeItem m).key = some m0 →
      (clientCreate store m).1 = true
      ∧ storeGet (clientCreate store m).2 (serializeItem m).key = some m)
    ∧ (∀ (hashKey kv : List Char) (store : GStore) (item g0 : GItem),
      gAttr item hashKey = some kv → gGet store kv = some g0 →
      create_item hashKey store item false
        = (store, some DbError.conditionalCheckFailed)) := by
  constructor
  · intro store m m0 _
    exact ⟨rfl, storeGet_storePut_self store _ m⟩
  · intro hashKey kv store item g0 h1 h2
    simp [create_item, h1, h2]

/-- Witness for the amended C3 theorem at concrete inputs: an occupied
product key overwritten by `create`, and an occupied generic key refused by
`create_item`. -/
theorem claim_create_conditionality_amended_witness :
    ((clientCreate storeWithA1 recReplacing).1 = true
      ∧ storeGet (clientCreate storeWithA1 recReplacing).2
          (serializeItem recReplacing).key = some recReplacing)
    ∧ create_item "PK".data gStoreOld gItemNew false
        = (gStoreOld, some DbError.conditionalCheckFailed) :=
  ⟨claim_create_conditionality_amended.1 storeWithA1 recReplacing recPersisted
      (by decide),
   claim_create_conditionality_amended.2 "PK".data "k1".data gStoreOld
      gItemNew gItemOld (by decide) (by decide)⟩

/-- Counterexample to claim C6 as stated: the field `approx 5;Years` is
accepted by `validate_value_unit_str` (returned unchanged) although its
numeric portion `approx 5` does not parse as a number — validity does not
require a numeric value part. -/
theorem claim_value_unit_numeric_counterexample :
    validate_value_unit_str (some "approx 5;Years".data)
      = .ok (some "approx 5;Years".data)
    ∧ isPyFloatNumeric "approx 5".data = false
    ∧ pySplitOn ';' "approx 5;Years".data = ["approx 5".data, "Years".data] :=
  ⟨rfl, by decide, by decide⟩

/-- Claim C6 as amended: a value/unit field is accepted exactly when the
string splits on `;` into two parts with a non-blank value part and a
non-empty unit — the numeric portion need not parse as a number; an invalid
value raises a `ValueError` (so the whole record fails validation and is
dropped) and is never silently replaced by `None`; an absent field passes
through; a one-part string raises the format error. -/
theorem claim_value_unit_validation_amended :
    (∀ s : List Char,
      validate_value_unit_str (some s) = .ok (some s)
        ↔ ∃ p0 p1, pySplitOn ';' s = [p0, p1] ∧ pyStrip p0 ≠ [] ∧ p1 ≠ [])
    ∧ (∀ s : List Char, validate_value_unit_str (some s) ≠ .ok none)
    ∧ validate_value_unit_str none = .ok none
    ∧ validate_value_unit_str (some "10".data)
        = .error "must be in value;unit format".data := by
  refine ⟨?_, ?_, rfl, rfl⟩
  · intro s
    constructor
    · intro h
      rcases hs : pySplitOn ';' s with - | ⟨p0, - | ⟨p1, - | ⟨p2, rest⟩⟩⟩
      · simp [validate_value_unit_str, hs] at h
      · simp [validate_value_unit_str, hs] at h
      · by_cases h0 : pyStrip p0 = []
        · simp [validate_value_unit_str, hs, h0] at h
        · by_cases h1 : p1 = []
          · simp [validate_value_unit_str, hs, h0, h1] at h
          · exact ⟨p0, p1, rfl, h0, h1⟩
      · simp [validate_value_unit_str, hs] at h
    · rintro ⟨p0, p1, hs, h0, h1⟩
      simp [validate_value_unit_str, hs, h0, h1]
  · intro s
    rcases hs : pySplitOn ';' s with - | ⟨p0, - | ⟨p1, - | ⟨p2, rest⟩⟩⟩
    · simp [validate_value_unit_str, hs]
    · simp [validate_value_unit_str, hs]
    · by_cases h0 : pyStrip p0 = []
      · simp [validate_value_unit_str, hs, h0]
      · by_cases h1 : p1 = []
        · simp [validate_value_unit_str, hs, h0, h1]
        · simp [validate_value_unit_str, hs, h0, h1]
    · simp [validate_value_unit_str, hs]

/-- Counterexample to claim C7 as stated: an extraction call that always
raises a fatal (auth-class) error is nonetheless attempted five times — it
is not surfaced without retry (which would mean a single attempt). -/
theorem claim_retry_fatal_counterexample :
    generateContentRetried
        (fun _ => (Except.error (GenFailure.fatal 0) : Except GenFailure Unit))
      = RetryOutcome.retryError (GenFailure.fatal 0) 5
    ∧ (RetryOutcome.retryError (GenFailure.fatal 0) 5
        : RetryOutcome Unit).attempts ≠ (1 : Nat) :=
  ⟨rfl, by decide⟩

/-- Claim C7 as amended: the decorated extraction call is retried with
bounded exponential backoff (every wait lies in `[4, 60]` seconds) up to the
fixed cap of five attempts, on **every** exception — transient or fatal
alike, since the decorator configures no retry predicate; a first-attempt
success is returned immediately, and an oracle that fails every attempt is
attempted exactly five times before the `RetryError` surfaces.  (The
decorator on `generate_content` is the repository's only retry; parsing and
validation run outside it and are never retried.) -/
theorem claim_retry_policy_amended :
    (∀ (α : Type) (f : Nat → Except GenFailure α) (e : Nat → GenFailure),
      (∀ k, f k = .error (e k)) →
        generateContentRetried f = .retryError (e 5) 5)
    ∧ (∀ (α : Type) (f : Nat → Except GenFailure α) (a : α),
      f 1 = .ok a → generateContentRetried f = .success a 1)
    ∧ (∀ (α : Type) (f : Nat → Except GenFailure α),
      (generateContentRetried f).attempts ≤ 5)
    ∧ (∀ n : Nat, 1 ≤ n →
        4 ≤ generateContentWait n ∧ generateContentWait n ≤ 60) := by
  refine ⟨?_, ?_, ?_, ?_⟩
  · intro α f e h
    have := retryGo_allError f e h 4 1
    simpa [generateContentRetried] using this
  · intro α f a h
    exact retryGo_firstOk f a 1 h 4
  · intro α f
    have := retryGo_attempts_le f 4 1
    simpa [generateContentRetried] using this
  · intro n _hn
    refine ⟨Nat.le_max_left _ _, Nat.max_le.mpr ⟨by norm_num, Nat.min_le_right _ _⟩⟩

/-- Witness for the amended C7 theorem: an always-transient oracle uses all
five attempts, a first-try success returns at attempt one, and the wait
after the second attempt lies within the bounds. -/
theorem claim_retry_policy_amended_witness :
    generateContentRetried
        (fun _ => (Except.error (GenFailure.transient 1) : Except GenFailure Nat))
      = RetryOutcome.retryError (GenFailure.transient 1) 5
    ∧ generateContentRetried (fun _ => (Except.ok 3 : Except GenFailure Nat))
        = RetryOutcome.success 3 1
    ∧ 4 ≤ generateContentWait 2 ∧ generateContentWait 2 ≤ 60 :=
  ⟨claim_retry_policy_amended.1 Nat _ (fun _ => GenFailure.transient 1)
      (fun _ => rfl),
   claim_retry_policy_amended.2.1 Nat _ 3 rfl,
   (claim_retry_policy_amended.2.2.2 2 (by decide)).1,
   (claim_retry_policy_amended.2.2.2 2 (by decide)).2⟩

/-- Claim C8: every batch holds at most 25 records, the chunking is lossless
(their concatenation is the submitted list), a per-item failure inside a
batch skips only that item (the success count is exactly the number of
serializable records wherever they sit), `push_to_db` reports a
`(successCount, failureCount)` pair summing to the number of submitted
records on both its paths, and 30 records are chunked into groups of 25 and
5. -/
theorem claim_batch_write_chunking_and_counts :
    (∀ (models b : List Record), b ∈ chunk25 models → b.length ≤ 25)
    ∧ (∀ models : List Record, (chunk25 models).flatten = models)
    ∧ (∀ (ser : Record → Option Item) (models : List Record) (store : Store),
        (batch_create ser models store).1
          = (models.filter (fun m => (ser m).isSome)).length)
    ∧ (∀ (ser : Record → Option Item) (useBatch : Bool)
        (models : List Record) (store : Store),
        (push_to_db ser useBatch models store).1.1
          + (push_to_db ser useBatch models store).1.2 = models.length)
    ∧ (chunk25 (List.range 30)).map List.length = [25, 5] := by
  refine ⟨fun _ _ hb => chunk25_mem_length hb, fun m => chunk25_flatten m,
    fun ser models store => batch_create_success ser models store, ?_,
    by decide⟩
  intro ser useBatch models store
  cases models with
  | nil => simp [push_to_db]
  | cons m rest =>
    cases useBatch with
    | true =>
      have hsucc := batch_create_success ser (m :: rest) store
      have hle : ((m :: rest).filter (fun x => (ser x).isSome)).length
          ≤ (m :: rest).length := List.length_filter_le _ _
      show (batch_create ser (m :: rest) store).1
          + ((m :: rest).length - (batch_create ser (m :: rest) store).1)
          = (m :: rest).length
      omega
    | false =>
      have h1 : ((m :: rest).foldl pushSingleStep ((0, 0), store)).1.1
          = 0 + (m :: rest).length :=
        (pushSingle_counts (m :: rest) ((0, 0), store)).1
      have h2 : ((m :: rest).foldl pushSingleStep ((0, 0), store)).1.2
          = 0 :=
        (pushSingle_counts (m :: rest) ((0, 0), store)).2
      show ((m :: rest).foldl pushSingleStep ((0, 0), store)).1.1
          + ((m :: rest).foldl pushSingleStep ((0, 0), store)).1.2
          = (m :: rest).length
      omega

/-- Witness for the membership hypothesis of the C8 theorem: the singleton
batch produced for a one-record list. -/
theorem claim_batch_write_chunking_and_counts_witness :
    ([recParsed1] : List Record).length ≤ 25 :=
  claim_batch_write_chunking_and_counts.1 [recParsed1] [recParsed1] (by decide)

/-- Witness for the amended C6 theorem: the characterization applied at the
concrete field `2;V`, whose split satisfies the conditions. -/
theorem claim_value_unit_validation_amended_witness :
    validate_value_unit_str (some "2;V".data) = .ok (some "2;V".data) :=
  (claim_value_unit_validation_amended.1 "2;V".data).mpr
    ⟨"2".data, "V".data, by decide, by decide, by decide⟩
